import Mathlib

/-!
Shallow embedding of the provider-abstraction and response-normalization
core of `electron/ProcessingHelper.ts` (the newer revision of the
`ProcessingHelper` class), together with theorems checking the
specification's claims about it.

JavaScript strings are modelled as lists of Unicode characters
(`Str := List Char`); the regular expressions used by the source are
implemented directly as scanning functions with the same leftmost-match
semantics.
-/

namespace ProcessingHelper

/-- Strings are modelled as lists of Unicode characters. -/
abbrev Str := List Char

/-- Turn a Lean string literal into the character-list model. -/
def str (s : String) : Str := s.data

/-- The character set matched by JavaScript `\s` (which is also the set
removed by `String.prototype.trim`): space, tab, LF, VT, FF, CR, NBSP,
Ogham space mark, the U+2000–U+200A range, LS, PS, NNBSP, MMSP,
ideographic space and BOM. -/
def isJsWhitespace (c : Char) : Bool :=
  c == ' ' || c == '\t' || c == '\n' || c == '\x0b' || c == '\x0c' ||
  c == '\r' || c == '\u00a0' || c == '\u1680' ||
  ('\u2000' ≤ c && c ≤ '\u200a') || c == '\u2028' || c == '\u2029' ||
  c == '\u202f' || c == '\u205f' || c == '\u3000' || c == '\ufeff'

/-- JavaScript `String.prototype.trim`. -/
def jsTrim (s : Str) : Str :=
  ((s.dropWhile isJsWhitespace).reverse.dropWhile isJsWhitespace).reverse

/-- The character class `[a-zA-Z0-9+#-_]` of the code-fence regular
expression in `formatDirectResponse`; note that `#-_` is a character
range (U+0023 through U+005F), not three literal characters. -/
def isFenceLangChar (c : Char) : Bool :=
  ('a' ≤ c && c ≤ 'z') || ('A' ≤ c && c ≤ 'Z') || ('0' ≤ c && c ≤ '9') ||
  c == '+' || ('#' ≤ c && c ≤ '_')

/-- The lazy body `[\s\S]*?` up to the first closing triple backtick;
`none` when no closing fence follows. -/
def fenceBody : Str → Option Str
  | '`' :: '`' :: '`' :: _ => some []
  | [] => none
  | c :: rest => (fenceBody rest).map (c :: ·)

/-- Try to match the fenced-code pattern (three backticks, an optional
language tag from `isFenceLangChar`, a newline, then a lazily matched
body closed by three backticks) at the head of the string, returning the
captured language tag and body.  Because the language-tag class cannot
match `\n`, the greedy tag run needs no backtracking. -/
def fenceAt (s : Str) : Option (Str × Str) :=
  match s with
  | '`' :: '`' :: '`' :: rest =>
    let lang := rest.takeWhile isFenceLangChar
    match rest.dropWhile isFenceLangChar with
    | '\n' :: afterNl => (fenceBody afterNl).map (fun b => (lang, b))
    | _ => none
  | _ => none

/-- Leftmost match of the code-fence regular expression
`/3backticks([a-zA-Z0-9+#-_]*)\n([\s\S]*?)3backticks/` used by
`formatDirectResponse`. -/
def findCodeBlock : Str → Option (Str × Str)
  | [] => none
  | s@(_ :: rest) =>
    match fenceAt s with
    | some r => some r
    | none => findCodeBlock rest

/-- The capture class `[ABCDabcd]`. -/
def isChoiceLetter (c : Char) : Bool :=
  c == 'A' || c == 'B' || c == 'C' || c == 'D' ||
  c == 'a' || c == 'b' || c == 'c' || c == 'd'

/-- Match the alternation `(?:最终答案|答案)` at the head of the string,
returning what follows the label.  If the longer label matches, the
shorter one cannot match at the same position (it starts with a
different character), so no backtracking across alternatives arises. -/
def answerLabelAt : Str → Option Str
  | '最' :: '终' :: '答' :: '案' :: rest => some rest
  | '答' :: '案' :: rest => some rest
  | _ => none

/-- Continue the labelled-letter pattern after the label:
`[:：]?\s*([ABCDabcd])`.  Consuming the optional colon is safe without
backtracking: if the colon is skipped instead, `\s*` matches nothing at
the colon and the letter class rejects it. -/
def letterAfterLabel (rest : Str) : Option Char :=
  let rest1 :=
    match rest with
    | c :: r => if c == ':' || c == '：' then r else rest
    | [] => []
  match rest1.dropWhile isJsWhitespace with
  | c :: _ => if isChoiceLetter c then some c else none
  | [] => none

/-- Leftmost match of `/(?:最终答案|答案)[:：]?\s*([ABCDabcd])/`, returning
the captured letter. -/
def findLabelledLetter : Str → Option Char
  | [] => none
  | s@(_ :: rest) =>
    match (answerLabelAt s).bind letterAfterLabel with
    | some c => some c
    | none => findLabelledLetter rest

/-- Worker for `splitJsLines`: split at each `\r\n` or `\n`. -/
def splitJsLinesGo (acc : Str) : Str → List Str
  | [] => [acc.reverse]
  | '\r' :: '\n' :: rest => acc.reverse :: splitJsLinesGo [] rest
  | '\n' :: rest => acc.reverse :: splitJsLinesGo [] rest
  | c :: rest => splitJsLinesGo (c :: acc) rest

/-- JavaScript `split(/\r?\n/)`. -/
def splitJsLines (s : Str) : List Str := splitJsLinesGo [] s

/-- `trimmed.split(/\r?\n/).map(trim).find(line => /^[ABCD]$/i.test(line))`:
the first line that, after trimming, is exactly one choice letter. -/
def soloLetterLine (s : Str) : Option Str :=
  ((splitJsLines s).map jsTrim).find? fun l =>
    match l with
    | [c] => isChoiceLetter c
    | _ => false

/-- The `formattedResponse` object assembled by `formatDirectResponse`;
fields that are absent or `undefined` on the source object are `none`. -/
structure FormattedResponse where
  answer_type : Str
  content : Str
  code : Option Str
  thoughts : Option (List Str)
  time_complexity : Option Str
  space_complexity : Option Str
  key_takeaways : Option (List Str)
  final_answer : Option Str
  deriving Repr, DecidableEq

/-- The `problemInfo` object assembled by `formatDirectResponse`. -/
structure ProblemInfo where
  problem_statement : Str
  constraints : Str
  example_input : Str
  example_output : Str
  answer_expectations : Str
  supporting_material : Str
  evaluation_focus : Str
  language_hint : Str
  final_answer : Str
  final_explanation : Str
  reasoning_steps : List Str
  raw_response : Str
  deriving Repr, DecidableEq

/-- The constant `problemInfo` skeleton shared by both branches of
`formatDirectResponse`. -/
def baseProblemInfo (trimmed : Str) : ProblemInfo where
  problem_statement := str "题目来自截图内容"
  constraints := str "N/A"
  example_input := str "N/A"
  example_output := str "N/A"
  answer_expectations := str "根据题意给出最优解答"
  supporting_material := str "N/A"
  evaluation_focus := str "答案准确性"
  language_hint := str "N/A"
  final_answer := str "N/A"
  final_explanation := str ""
  reasoning_steps := [str "模型基于截图完成分析"]
  raw_response := trimmed

/-- The `formattedResponse` object of the fenced-code branch of
`formatDirectResponse`. -/
def codeResponse (code : Str) : FormattedResponse where
  answer_type := str "code"
  content := code
  code := some code
  thoughts := some [str "依据题意给出可运行实现"]
  time_complexity := none
  space_complexity := none
  key_takeaways := none
  final_answer := none

/-- The `problemInfo` object of the fenced-code branch of
`formatDirectResponse`. -/
def codeProblemInfo (trimmed codeLang : Str) : ProblemInfo :=
  { baseProblemInfo trimmed with
    language_hint := codeLang
    final_explanation := str "模型直接生成了完整代码实现" }

/-- The `formattedResponse` object of the analysis branch of
`formatDirectResponse`; `letter` is the optional uppercased
multiple-choice letter. -/
def analysisResponse (trimmed : Str) (letter : Option Str) : FormattedResponse where
  answer_type := str "analysis"
  content := trimmed
  code := none
  thoughts := none
  time_complexity := none
  space_complexity := none
  key_takeaways := letter.map (fun l => [str "正确选项：" ++ l])
  final_answer := letter

/-- The `problemInfo` object of the analysis branch of
`formatDirectResponse`. -/
def analysisProblemInfo (trimmed : Str) (letter : Option Str) : ProblemInfo :=
  { baseProblemInfo trimmed with
    final_answer := letter.getD (str "N/A")
    final_explanation :=
      if letter.isSome then str "模型已直接给出最终选项"
      else str "模型提供了解题分析" }

/-- `formatDirectResponse(fullText, language)` of the newer revision:
trim the reply, throw on an empty reply, otherwise classify it as a
fenced code answer or as free-form analysis with an optional
multiple-choice letter (explicit label match first, then a lone
letter-only line). -/
def formatDirectResponse (fullText : Str) (language : Str) :
    Except Str (FormattedResponse × ProblemInfo) :=
  let trimmed := jsTrim fullText
  if trimmed = [] then
    .error (str "模型未返回内容，请重试或检查截图质量。")
  else
    match findCodeBlock trimmed with
    | some (langTag, body) =>
      let codeLang := if langTag = [] then language else langTag
      .ok (codeResponse (jsTrim body), codeProblemInfo trimmed codeLang)
    | none =>
      let letter : Option Str :=
        match findLabelledLetter trimmed with
        | some c => some [c.toUpper]
        | none => (soloLetterLine trimmed).map (·.map Char.toUpper)
      .ok (analysisResponse trimmed letter, analysisProblemInfo trimmed letter)

/-- Substring match at the head of a string. -/
def headMatches : Str → Str → Bool
  | _, [] => true
  | [], _ :: _ => false
  | c :: s, p :: ps => c == p && headMatches s ps

/-- JavaScript `String.prototype.includes`. -/
def strIncludes (s pat : Str) : Bool :=
  match s with
  | [] => headMatches [] pat
  | _ :: rest => headMatches s pat || strIncludes rest pat

/-- One element of the OpenAI chat-completion user message `content`
array built by `processScreenshotsHelper`. -/
inductive OpenAIPart where
  | text (text : Str)
  | image_url (url : Str)
  deriving Repr, DecidableEq

/-- The user-message content array built for the OpenAI provider: the
instruction text part, then one `image_url` part per screenshot in queue
order, each a base64 data URL. -/
def buildOpenAIContent (instruction : Str) (imageDataList : List Str) :
    List OpenAIPart :=
  .text instruction ::
    imageDataList.map (fun data => .image_url (str "data:image/png;base64," ++ data))

/-- One element of the Gemini `contents[0].parts` array. -/
inductive GeminiPart where
  | inlineData (mimeType : Str) (data : Str)
  | text (text : Str)
  deriving Repr, DecidableEq

/-- The parts array built for the Gemini provider: one `inlineData` part
per screenshot first, the instruction text last. -/
def buildGeminiParts (instruction : Str) (imageDataList : List Str) :
    List GeminiPart :=
  imageDataList.map (fun data => .inlineData (str "image/png") data) ++
    [.text instruction]

/-- One element of the Anthropic user message `content` array. -/
inductive AnthropicPart where
  | text (text : Str)
  | image (sourceType : Str) (mediaType : Str) (data : Str)
  deriving Repr, DecidableEq

/-- The user-message content array built for the Anthropic provider: a
text block, then one base64 image block per screenshot with an explicit
`image/png` media type. -/
def buildAnthropicContent (instruction : Str) (imageDataList : List Str) :
    List AnthropicPart :=
  .text instruction ::
    imageDataList.map (fun data => .image (str "base64") (str "image/png") data)

/-- Image-part discriminator for the OpenAI content array. -/
def isOpenAIImagePart : OpenAIPart → Bool
  | .image_url _ => true
  | .text _ => false

/-- Image-part discriminator for the Gemini parts array. -/
def isGeminiImagePart : GeminiPart → Bool
  | .inlineData _ _ => true
  | .text _ => false

/-- Image-part discriminator for the Anthropic content array. -/
def isAnthropicImagePart : AnthropicPart → Bool
  | .image _ _ _ => true
  | .text _ => false

/-- One element of a Gemini candidate's `content.parts`; `text` is
`none` when the field is absent or not a string. -/
structure GeminiRespPart where
  text : Option Str
  deriving Repr, DecidableEq

/-- A Gemini candidate's `content`; `parts` is `none` when absent. -/
structure GeminiRespContent where
  parts : Option (List GeminiRespPart)
  deriving Repr, DecidableEq

/-- One element of a Gemini response's `candidates` array. -/
structure GeminiCandidate where
  content : Option GeminiRespContent
  finishReason : Option Str
  deriving Repr, DecidableEq

/-- The fields of the Gemini response envelope the extraction code
reads; an absent `candidates` array is modelled as the empty list, and
`blockReason` is `promptFeedback?.blockReason`. -/
structure GeminiResponse where
  candidates : List GeminiCandidate
  blockReason : Option Str
  deriving Repr, DecidableEq

/-- The text the solve pipeline collects from one Gemini candidate: each
string-typed, nonblank part text is trimmed and pushed, the pieces are
joined with newlines, and the result is trimmed. -/
def geminiCandidateText (c : GeminiCandidate) : Str :=
  let parts := (c.content.bind (·.parts)).getD []
  let collectedText := parts.filterMap fun p =>
    match p.text with
    | some t => if jsTrim t ≠ [] then some (jsTrim t) else none
    | none => none
  jsTrim (List.intercalate (str "\n") collectedText)

/-- Gemini text extraction in `processScreenshotsHelper` (solve
pipeline): fail when there are no candidates; otherwise collect the
first candidate's text; an empty result is an error unless the finish
reason is `MAX_TOKENS`, in which case the empty partial text is
accepted. -/
def geminiSolveExtract (r : GeminiResponse) : Except Str Str :=
  match r.candidates with
  | [] =>
    .error (str "Empty response from Gemini API (" ++
            r.blockReason.getD (str "no-candidates") ++ str ")")
  | firstCandidate :: _ =>
    let fullText := geminiCandidateText firstCandidate
    if fullText = [] ∧ firstCandidate.finishReason ≠ some (str "MAX_TOKENS") then
      .error (str "Gemini response missing text")
    else
      .ok fullText

/-- Gemini text extraction in `processExtraScreenshotsHelper` (debug
pipeline): fail when there are no candidates or the first candidate has
no parts; otherwise take only the first part's text and fail when it is
blank, with no finish-reason exemption. -/
def geminiDebugExtract (r : GeminiResponse) : Except Str Str :=
  match r.candidates with
  | [] => .error (str "Empty response from Gemini API")
  | firstCandidate :: _ =>
    match firstCandidate.content with
    | none => .error (str "Gemini response content.parts is empty or missing")
    | some content =>
      match content.parts with
      | none => .error (str "Gemini response content.parts is empty or missing")
      | some [] => .error (str "Gemini response content.parts is empty or missing")
      | some (p :: _) =>
        let debugContent := p.text.getD []
        if jsTrim debugContent = [] then
          .error (str "Gemini response missing text content")
        else
          .ok debugContent

/-- `config.apiProvider`. -/
inductive Provider where
  | openai
  | gemini
  | anthropic
  deriving Repr, DecidableEq

/-- The configuration fields read by `initializeAIClient`; the source
tests `config.apiKey` for truthiness, i.e. non-emptiness. -/
structure Config where
  apiProvider : Provider
  apiKey : Str
  openaiBaseUrl : Option Str
  geminiBaseUrl : Option Str
  anthropicBaseUrl : Option Str
  deriving Repr, DecidableEq

/-- A live OpenAI SDK client with its construction arguments. -/
structure OpenAIClient where
  apiKey : Str
  baseURL : Option Str
  deriving Repr, DecidableEq

/-- A live Anthropic SDK client with its construction arguments. -/
structure AnthropicClient where
  apiKey : Str
  baseURL : Option Str
  deriving Repr, DecidableEq

/-- The mutable provider-client fields of the `ProcessingHelper`
class. -/
structure ClientState where
  openaiClient : Option OpenAIClient
  geminiApiKey : Option Str
  geminiBaseUrl : Option Str
  anthropicClient : Option AnthropicClient
  deriving Repr, DecidableEq

/-- `initializeAIClient()`: rebuild the client for the configured
provider and null the other providers' fields.  `loaded = none` models
`configHelper.loadConfig()` throwing, handled by the catch block, which
nulls the three credential fields but leaves `geminiBaseUrl`
untouched. -/
def initializeAIClient (s : ClientState) (loaded : Option Config) : ClientState :=
  match loaded with
  | none =>
    { s with openaiClient := none, geminiApiKey := none, anthropicClient := none }
  | some config =>
    match config.apiProvider with
    | .openai =>
      if config.apiKey ≠ [] then
        { openaiClient := some { apiKey := config.apiKey, baseURL := config.openaiBaseUrl }
          geminiApiKey := none
          geminiBaseUrl := none
          anthropicClient := none }
      else
        { openaiClient := none, geminiApiKey := none, geminiBaseUrl := none
          anthropicClient := none }
    | .gemini =>
      let s1 := { s with openaiClient := none, anthropicClient := none }
      if config.apiKey ≠ [] then
        { s1 with geminiApiKey := some config.apiKey
                  geminiBaseUrl := config.geminiBaseUrl }
      else
        { openaiClient := none, geminiApiKey := none, geminiBaseUrl := none
          anthropicClient := none }
    | .anthropic =>
      let s1 := { s with openaiClient := none, geminiApiKey := none, geminiBaseUrl := none }
      if config.apiKey ≠ [] then
        { s1 with anthropicClient := some ⟨config.apiKey, config.anthropicBaseUrl⟩ }
      else
        { openaiClient := none, geminiApiKey := none, geminiBaseUrl := none
          anthropicClient := none }

/-- How many provider families hold live credentials. -/
def credentialCount (s : ClientState) : Nat :=
  [s.openaiClient.isSome, s.geminiApiKey.isSome, s.anthropicClient.isSome].count true

/-- Outcome of one pipeline-helper invocation carrying payload `α`. -/
inductive HelperResult (α : Type) where
  | success (data : α)
  | failure (error : Str)
  deriving Repr, DecidableEq

/-- The error shape inspected by the catch block of
`processScreenshotsHelper`: `message`, the axios cancellation flag,
`error?.response?.status`, the SDK-level `error?.status`, and
`error?.response?.data?.error?.message`. -/
structure CaughtError where
  message : Str
  isCancel : Bool
  responseStatus : Option Nat
  status : Option Nat
  geminiDetail : Option Str
  deriving Repr, DecidableEq

/-- `error?.message || "Failed to process screenshots. Please try
again."`. -/
def genericSolveError (e : CaughtError) : Str :=
  if e.message = [] then str "Failed to process screenshots. Please try again."
  else e.message

/-- The catch block of `processScreenshotsHelper`: map a thrown error to
the helper's failure result, with cancellation checked first, then
provider-specific status shapes, then the generic message. -/
def mapSolveCatch (provider : Provider) (e : CaughtError) :
    HelperResult FormattedResponse :=
  if e.isCancel then
    .failure (str "Processing was canceled by the user.")
  else
    match provider with
    | .openai =>
      if e.responseStatus == some 401 then
        .failure (str "Invalid OpenAI API key. Please check your settings.")
      else if e.responseStatus == some 429 then
        .failure (str "OpenAI API rate limit exceeded or insufficient credits. Please try again later.")
      else if e.responseStatus == some 500 then
        .failure (str "OpenAI server error. Please try again later.")
      else
        .failure (genericSolveError e)
    | .gemini =>
      match e.geminiDetail with
      | some detail => .failure detail
      | none => .failure (genericSolveError e)
    | .anthropic =>
      if e.status == some 429 then
        .failure (str "Claude API rate limit exceeded. Please wait a few minutes before trying again.")
      else if e.status == some 413 || strIncludes (e.message.map Char.toLower) (str "token") then
        .failure (str "Your screenshots contain too much information for Claude to process. Switch to OpenAI or Gemini in settings which can handle larger inputs.")
      else
        .failure (genericSolveError e)

/-- The classification error thrown by `formatDirectResponse` as the
catch block sees it: a plain `Error` with no axios or SDK fields. -/
def plainError (msg : Str) : CaughtError where
  message := msg
  isCancel := false
  responseStatus := none
  status := none
  geminiDetail := none

/-- The tail of `processScreenshotsHelper` once the provider reply text
is in hand: classify it with `formatDirectResponse`; a thrown
classification error flows to the catch block. -/
def solveFinalize (provider : Provider) (fullText language : Str) :
    HelperResult FormattedResponse :=
  match formatDirectResponse fullText language with
  | .ok (formattedResponse, _) => .success formattedResponse
  | .error msg => mapSolveCatch provider (plainError msg)

/-- The provider replies a debug run would receive, abstracting the
network layer; `geminiCall = none` models the Gemini network call
throwing — in particular when its abort token fires and axios raises the
cancellation error — instead of delivering a response. -/
structure DebugEnv where
  openaiContent : Str
  geminiCall : Option GeminiResponse
  anthropicFirstText : Str
  deriving Repr, DecidableEq

/-- The head of `processExtraScreenshotsHelper` through provider
dispatch: the missing-problem-context check precedes every provider
branch, and its failure is thrown and caught at the bottom of the
helper as `"No problem info available"`.  The Gemini branch's in-branch
catch swallows every throw of the call-and-extract block — a thrown
(e.g. user-aborted) network call as much as an extraction failure — into
one generic failure message, so the helper never returns a
cancellation-shaped result.  The second component counts provider
network calls issued; a success carries the raw `debugContent` reply
(whose markdown post-processing is downstream of everything checked
here). -/
def processExtraScreenshotsHelper (problemInfo : Option ProblemInfo)
    (config : Config) (s : ClientState) (env : DebugEnv) :
    HelperResult Str × Nat :=
  match problemInfo with
  | none => (.failure (str "No problem info available"), 0)
  | some _ =>
    match config.apiProvider with
    | .openai =>
      if s.openaiClient = none then
        (.failure (str "OpenAI API key not configured. Please check your settings."), 0)
      else
        (.success env.openaiContent, 1)
    | .gemini =>
      if s.geminiApiKey = none then
        (.failure (str "Gemini API key not configured. Please check your settings."), 0)
      else
        match env.geminiCall with
        | none =>
          (.failure (str "Failed to process debug request with Gemini API. Please check your API key or try again later."), 1)
        | some r =>
          match geminiDebugExtract r with
          | .ok t => (.success t, 1)
          | .error _ =>
            (.failure (str "Failed to process debug request with Gemini API. Please check your API key or try again later."), 1)
    | .anthropic =>
      if s.anthropicClient = none then
        (.failure (str "Anthropic API key not configured. Please check your settings."), 0)
      else
        (.success env.anthropicFirstText, 1)

/-- Lifecycle events `processScreenshots` and `cancelOngoingRequests`
send to the UI boundary (the `PROCESSING_EVENTS` channels); progress
notifications are omitted, being outside the event contract. -/
inductive UIEvent where
  | initialStart
  | noScreenshots
  | apiKeyInvalid
  | problemExtracted
  | solutionSuccess
  | initialSolutionError (message : Str)
  | debugStart
  | debugSuccess
  | debugError (message : Str)
  deriving Repr, DecidableEq

/-- What an awaited `processScreenshotsHelper` (solve) invocation
returns when its network call settles: a success, a non-cancellation
failure, or — only once its abort token has fired, since the solve
Gemini catch rethrows into the helper's `axios.isCancel` check — the
cancellation failure produced by the aborted call. -/
inductive HelperOutcome where
  | success
  | failure (error : Str)
  | canceled
  deriving Repr, DecidableEq

/-- What an awaited `processExtraScreenshotsHelper` (debug) invocation
returns: only a success or a failure result.  The debug helper catches
every throw internally — the Gemini in-branch catch swallows even an
aborted network call into its generic failure — so no
cancellation-shaped outcome exists and the `axios.isCancel` branch of
the debug view's catch in `processScreenshots` is unreachable. -/
inductive DebugOutcome where
  | success
  | failure (error : Str)
  deriving Repr, DecidableEq

/-- The coordinator state of `ProcessingHelper`: the two
abort-controller slots (controllers are numbered by creation order),
which controllers have been aborted, the helper invocations still in
flight for each pipeline kind, the context flags, and the events emitted
so far. -/
structure CoordState where
  solveController : Option Nat
  extraController : Option Nat
  aborted : List Nat
  nextToken : Nat
  solveInFlight : List Nat
  extraInFlight : List Nat
  hasProblemInfo : Bool
  hasDebugged : Bool
  events : List UIEvent
  deriving Repr, DecidableEq

/-- The coordinator state at startup. -/
def initialCoordState : CoordState where
  solveController := none
  extraController := none
  aborted := []
  nextToken := 0
  solveInFlight := []
  extraInFlight := []
  hasProblemInfo := false
  hasDebugged := false
  events := []

/-- Atomic coordinator actions: a `processScreenshots` invocation
reaching the point where it stores a fresh `AbortController` and awaits
its helper (per view), the helper's awaited completion, and
`cancelOngoingRequests`. -/
inductive CoordAction where
  | startSolve
  | startDebug
  | completeSolve (token : Nat) (outcome : HelperOutcome)
  | completeDebug (token : Nat) (outcome : DebugOutcome)
  | cancelOngoing
  deriving Repr, DecidableEq

/-- The keyword test `processScreenshots` applies to a failed solve
result before choosing between the credential-invalid event and the
solution-error event. -/
def isCredentialShapedError (error : Str) : Bool :=
  strIncludes error (str "API Key") || strIncludes error (str "OpenAI") ||
  strIncludes error (str "Gemini") || strIncludes error (str "Anthropic")

/-- One coordinator step, translated from `processScreenshots` (both
views) and `cancelOngoingRequests`:

* starting a run of either kind emits the start event and overwrites the
  pipeline's controller slot with a fresh controller, with no abort of a
  controller already stored there;
* a completed solve run emits success events, the credential event, or a
  solution-error (a cancellation failure — possible only for an aborted
  token — carries the fixed canceled message), and the `finally` clause
  then nulls the solve controller slot unconditionally;
* a completed debug run emits debug-success (setting the has-debugged
  flag) or debug-error with the helper's failure message; the debug
  helper returns no cancellation-shaped outcome, so a user abort reaches
  this point as an ordinary failure result;
* `cancelOngoingRequests` aborts whatever controllers the two slots
  hold, nulls both slots, clears the debug flag and problem context, and
  emits the no-screenshots reset event when a controller was live. -/
def coordStep (s : CoordState) : CoordAction → CoordState
  | .startSolve =>
    { s with events := s.events ++ [UIEvent.initialStart]
             solveController := some s.nextToken
             solveInFlight := s.solveInFlight ++ [s.nextToken]
             nextToken := s.nextToken + 1 }
  | .startDebug =>
    { s with events := s.events ++ [UIEvent.debugStart]
             extraController := some s.nextToken
             extraInFlight := s.extraInFlight ++ [s.nextToken]
             nextToken := s.nextToken + 1 }
  | .completeSolve token outcome =>
    if token ∈ s.solveInFlight ∧ (outcome = .canceled → token ∈ s.aborted) then
      let s1 := { s with solveInFlight := s.solveInFlight.erase token }
      let s2 :=
        match outcome with
        | .success =>
          { s1 with hasProblemInfo := true
                    events := s1.events ++ [UIEvent.problemExtracted, UIEvent.solutionSuccess] }
        | .failure error =>
          if isCredentialShapedError error then
            { s1 with events := s1.events ++ [UIEvent.apiKeyInvalid] }
          else
            { s1 with events := s1.events ++ [UIEvent.initialSolutionError error] }
        | .canceled =>
          { s1 with events := s1.events ++
              [UIEvent.initialSolutionError (str "Processing was canceled by the user.")] }
      { s2 with solveController := none }
    else s
  | .completeDebug token outcome =>
    if token ∈ s.extraInFlight then
      let s1 := { s with extraInFlight := s.extraInFlight.erase token }
      let s2 :=
        match outcome with
        | .success =>
          { s1 with hasDebugged := true
                    events := s1.events ++ [UIEvent.debugSuccess] }
        | .failure error =>
          { s1 with events := s1.events ++ [UIEvent.debugError error] }
      { s2 with extraController := none }
    else s
  | .cancelOngoing =>
    let wasCancelled := s.solveController.isSome || s.extraController.isSome
    { s with solveController := none
             extraController := none
             aborted := s.aborted ++ s.solveController.toList ++ s.extraController.toList
             hasDebugged := false
             hasProblemInfo := false
             events := if wasCancelled then s.events ++ [UIEvent.noScreenshots] else s.events }

/-- Run the coordinator from startup over a list of actions. -/
def runCoord (acts : List CoordAction) : CoordState :=
  acts.foldl coordStep initialCoordState

/-- A Gemini reply whose only candidate was stopped by `MAX_TOKENS` and
contributed only blank text. -/
def truncatedBlankGeminiResponse : GeminiResponse where
  candidates := [⟨some ⟨some [⟨some (str "  ")⟩]⟩, some (str "MAX_TOKENS")⟩]
  blockReason := none

/-- A Gemini reply whose only candidate stopped normally and contributed
only blank text. -/
def stoppedBlankGeminiResponse : GeminiResponse where
  candidates := [⟨some ⟨some [⟨some (str "   ")⟩]⟩, some (str "STOP")⟩]
  blockReason := none

/-- A Gemini reply with no candidates and a safety block reason. -/
def blockedGeminiResponse : GeminiResponse where
  candidates := []
  blockReason := some (str "SAFETY")

/-- The coordinator state after two back-to-back solve requests. -/
def twoSolveStarts : CoordState :=
  runCoord [.startSolve, .startSolve]

/-- The coordinator state after one solve request followed by
`cancelOngoingRequests`. -/
def canceledSolveStart : CoordState :=
  runCoord [.startSolve, .cancelOngoing]

/-- The coordinator state after one debug request followed by
`cancelOngoingRequests`. -/
def canceledDebugStart : CoordState :=
  runCoord [.startDebug, .cancelOngoing]

/-- A client state in which several stale credentials linger. -/
def staleClientState : ClientState where
  openaiClient := some ⟨str "sk-stale", none⟩
  geminiApiKey := some (str "AIza-stale")
  geminiBaseUrl := some (str "https://gemini.example")
  anthropicClient := some ⟨str "ant-stale", none⟩

/-- A Gemini configuration carrying a fresh key. -/
def geminiConfig : Config where
  apiProvider := .gemini
  apiKey := str "AIza-new"
  openaiBaseUrl := none
  geminiBaseUrl := some (str "https://generativelanguage.googleapis.com/v1beta")
  anthropicBaseUrl := none

/-- A debug environment whose Gemini network call throws instead of
delivering a response — the situation produced by a fired abort
token. -/
def abortedDebugEnv : DebugEnv where
  openaiContent := str ""
  geminiCall := none
  anthropicFirstText := str ""

/-! Helper lemmas shared by the claim theorems. -/

/-- A string with a code-fence match is nonempty. -/
theorem ne_nil_of_findCodeBlock {s : Str} {r : Str × Str}
    (h : findCodeBlock s = some r) : s ≠ [] := by
  intro hnil
  rw [hnil] at h
  simp [findCodeBlock] at h

/-- A string with a labelled-letter match is nonempty. -/
theorem ne_nil_of_findLabelledLetter {s : Str} {c : Char}
    (h : findLabelledLetter s = some c) : s ≠ [] := by
  intro hnil
  rw [hnil] at h
  simp [findLabelledLetter] at h

/-- A string with a letter-only line is nonempty. -/
theorem ne_nil_of_soloLetterLine {s : Str} {l : Str}
    (h : soloLetterLine s = some l) : s ≠ [] := by
  intro hnil
  rw [hnil] at h
  simp [soloLetterLine, splitJsLines, splitJsLinesGo, jsTrim] at h

/-- C1: for every extracted response text containing both a fenced code
block with a nonempty body and a multiple-choice letter pattern
(labelled or letter-only line), classification returns the code answer
type with the trimmed fenced body as the code: the code-fence match
takes priority over the multiple-choice match. -/
theorem code_fence_priority (fullText language langTag body : Str)
    (hfence : findCodeBlock (jsTrim fullText) = some (langTag, body))
    (hbody : body ≠ [])
    (hletter : findLabelledLetter (jsTrim fullText) ≠ none ∨
               soloLetterLine (jsTrim fullText) ≠ none) :
    formatDirectResponse fullText language =
      .ok (codeResponse (jsTrim body),
           codeProblemInfo (jsTrim fullText)
             (if langTag = [] then language else langTag)) := by
  have hne : jsTrim fullText ≠ [] := ne_nil_of_findCodeBlock hfence
  unfold formatDirectResponse
  rw [if_neg hne, hfence]

/-- Witness for C1 at a reply holding both a labelled answer letter and
a fenced Python block: the result is the code answer. -/
theorem code_fence_priority_witness :
    formatDirectResponse (str "最终答案：B\n```python\nprint(1)\n```") (str "java") =
      .ok (codeResponse (str "print(1)"),
           codeProblemInfo (str "最终答案：B\n```python\nprint(1)\n```") (str "python")) :=
  code_fence_priority (str "最终答案：B\n```python\nprint(1)\n```") (str "java")
    (str "python") (str "print(1)\n") (by decide) (by decide) (.inl (by decide))

/-- C2: for every nonblank input with no fenced code block, no labelled
answer letter and no letter-only line, classification returns the
analysis answer type, the trimmed input as content and no structured
fields, and it does not throw. -/
theorem analysis_fallback_total (fullText language : Str)
    (hne : jsTrim fullText ≠ [])
    (hfence : findCodeBlock (jsTrim fullText) = none)
    (hlab : findLabelledLetter (jsTrim fullText) = none)
    (hsolo : soloLetterLine (jsTrim fullText) = none) :
    formatDirectResponse fullText language =
      .ok (analysisResponse (jsTrim fullText) none,
           analysisProblemInfo (jsTrim fullText) none) := by
  unfold formatDirectResponse
  rw [if_neg hne, hfence, hlab, hsolo]
  rfl

/-- Witness for C2 at plain prose with no structure. -/
theorem analysis_fallback_total_witness :
    formatDirectResponse (str "这道题考察阅读理解能力") (str "python") =
      .ok (analysisResponse (str "这道题考察阅读理解能力") none,
           analysisProblemInfo (str "这道题考察阅读理解能力") none) :=
  analysis_fallback_total (str "这道题考察阅读理解能力") (str "python")
    (by decide) (by decide) (by decide) (by decide)

/-- C3: without a fenced code block the classifier first consults the
labelled "final answer" pattern and only then the letter-only line; a
match yields the analysis answer type, the uppercased letter, and one
synthesized key takeaway naming that letter. -/
theorem choice_letter_extraction (fullText language : Str)
    (hfence : findCodeBlock (jsTrim fullText) = none) :
    (∀ c : Char, findLabelledLetter (jsTrim fullText) = some c →
       formatDirectResponse fullText language =
         .ok (analysisResponse (jsTrim fullText) (some [c.toUpper]),
              analysisProblemInfo (jsTrim fullText) (some [c.toUpper]))) ∧
    (findLabelledLetter (jsTrim fullText) = none →
       ∀ l : Str, soloLetterLine (jsTrim fullText) = some l →
         formatDirectResponse fullText language =
           .ok (analysisResponse (jsTrim fullText) (some (l.map Char.toUpper)),
                analysisProblemInfo (jsTrim fullText) (some (l.map Char.toUpper)))) := by
  constructor
  · intro c hlab
    have hne : jsTrim fullText ≠ [] := ne_nil_of_findLabelledLetter hlab
    unfold formatDirectResponse
    rw [if_neg hne, hfence, hlab]
  · intro hlab l hsolo
    have hne : jsTrim fullText ≠ [] := ne_nil_of_soloLetterLine hsolo
    unfold formatDirectResponse
    rw [if_neg hne, hfence, hlab, hsolo]
    rfl

/-- Witness for C3 at the reply `最终答案：C` plus an explanation line:
the chosen letter is `C` and the key takeaways are exactly
`["正确选项：C"]`. -/
theorem choice_letter_extraction_witness :
    (formatDirectResponse (str "最终答案：C\n因为C最符合题意") (str "python") =
       .ok (analysisResponse (str "最终答案：C\n因为C最符合题意") (some (str "C")),
            analysisProblemInfo (str "最终答案：C\n因为C最符合题意") (some (str "C")))) ∧
    (analysisResponse (str "最终答案：C\n因为C最符合题意") (some (str "C"))).key_takeaways =
      some [str "正确选项：C"] ∧
    (analysisResponse (str "最终答案：C\n因为C最符合题意") (some (str "C"))).final_answer =
      some (str "C") :=
  ⟨(choice_letter_extraction (str "最终答案：C\n因为C最符合题意") (str "python")
      (by decide)).1 'C' (by decide), by decide, by decide⟩

/-- C10: a provider reply that is empty or blank after trimming makes
`formatDirectResponse` throw, and the solve pipeline turns the throw
into a failure result carrying that message, for every provider. -/
theorem blank_reply_reports_failure (provider : Provider) (fullText language : Str)
    (hblank : jsTrim fullText = []) :
    formatDirectResponse fullText language =
      .error (str "模型未返回内容，请重试或检查截图质量。") ∧
    solveFinalize provider fullText language =
      .failure (str "模型未返回内容，请重试或检查截图质量。") := by
  have h1 : formatDirectResponse fullText language =
      .error (str "模型未返回内容，请重试或检查截图质量。") := by
    unfold formatDirectResponse
    rw [hblank]
    rfl
  refine ⟨h1, ?_⟩
  unfold solveFinalize
  rw [h1]
  cases provider <;> rfl

/-- Witness for C10 at a whitespace-only reply for the OpenAI
provider. -/
theorem blank_reply_reports_failure_witness :
    formatDirectResponse (str "  \n ") (str "python") =
      .error (str "模型未返回内容，请重试或检查截图质量。") ∧
    solveFinalize .openai (str "  \n ") (str "python") =
      .failure (str "模型未返回内容，请重试或检查截图质量。") :=
  blank_reply_reports_failure .openai (str "  \n ") (str "python") (by decide)

/-- Counting a mapped list in which every image lands in the counted
class gives the length of the original list. -/
theorem countP_map_all_true {α β : Type} (f : α → β) (p : β → Bool) (l : List α)
    (h : ∀ a, p (f a) = true) : (l.map f).countP p = l.length := by
  induction l with
  | nil => rfl
  | cons a l ih => simp [List.countP_cons, h, ih]

/-- C4: each provider's built request holds exactly one image part per
screenshot, in list order, laid out per the vendor contract: OpenAI puts
the text part first and the image parts after it, Gemini puts the images
first and the instruction text last, and Anthropic puts a text block
first and then the base64 image blocks, each tagged `image/png`. -/
theorem request_builders_image_contract (instruction : Str) (imageDataList : List Str) :
    ((buildOpenAIContent instruction imageDataList).countP isOpenAIImagePart =
        imageDataList.length ∧
     (buildOpenAIContent instruction imageDataList).head? =
        some (.text instruction) ∧
     (buildOpenAIContent instruction imageDataList).tail =
        imageDataList.map (fun data => .image_url (str "data:image/png;base64," ++ data))) ∧
    ((buildGeminiParts instruction imageDataList).countP isGeminiImagePart =
        imageDataList.length ∧
     (buildGeminiParts instruction imageDataList).take imageDataList.length =
        imageDataList.map (fun data => .inlineData (str "image/png") data) ∧
     (buildGeminiParts instruction imageDataList).getLast? =
        some (.text instruction)) ∧
    ((buildAnthropicContent instruction imageDataList).countP isAnthropicImagePart =
        imageDataList.length ∧
     (buildAnthropicContent instruction imageDataList).head? =
        some (.text instruction) ∧
     (buildAnthropicContent instruction imageDataList).tail =
        imageDataList.map (fun data => .image (str "base64") (str "image/png") data)) := by
  refine ⟨⟨?_, rfl, rfl⟩, ⟨?_, ?_, ?_⟩, ⟨?_, rfl, rfl⟩⟩
  · rw [buildOpenAIContent, List.countP_cons]
    simp only [isOpenAIImagePart, Bool.false_eq_true, if_false, Nat.add_zero]
    exact countP_map_all_true _ _ _ (fun a => rfl)
  · rw [buildGeminiParts, List.countP_append]
    rw [countP_map_all_true _ _ _ (fun a => rfl)]
    rfl
  · rw [buildGeminiParts, ← List.length_map imageDataList
          (fun data => GeminiPart.inlineData (str "image/png") data)]
    exact List.take_left _ _
  · rw [buildGeminiParts]
    exact List.getLast?_concat _
  · rw [buildAnthropicContent, List.countP_cons]
    simp only [isAnthropicImagePart, Bool.false_eq_true, if_false, Nat.add_zero]
    exact countP_map_all_true _ _ _ (fun a => rfl)

/-- Counterexample to C5 as stated: the claim's acceptance-on-truncation
rule does not govern the debug pipeline's Gemini extraction.  On a reply
whose only candidate finished with `MAX_TOKENS` and contributed only
blank text, the solve extraction accepts the empty partial text, but the
debug extraction fails. -/
theorem gemini_debug_truncation_counterexample :
    truncatedBlankGeminiResponse.candidates.map GeminiCandidate.finishReason =
      [some (str "MAX_TOKENS")] ∧
    geminiSolveExtract truncatedBlankGeminiResponse = .ok [] ∧
    geminiDebugExtract truncatedBlankGeminiResponse =
      .error (str "Gemini response missing text content") :=
  ⟨rfl, rfl, rfl⟩

/-- C5 (amended): the solve pipeline's Gemini extraction takes the first
candidate and fails on zero collected text unless the finish reason is
`MAX_TOKENS`, in which case the partial text (possibly empty) is
accepted, and any nonempty collected text is accepted; with no
candidates it fails with the empty-response error.  The debug pipeline's
extraction instead reads only the first part of the first candidate and
fails on blank text with no finish-reason exemption. -/
theorem gemini_extraction_behaviour :
    (∀ (r : GeminiResponse) (c : GeminiCandidate) (rest : List GeminiCandidate),
       r.candidates = c :: rest → geminiCandidateText c = [] →
       c.finishReason ≠ some (str "MAX_TOKENS") →
       geminiSolveExtract r = .error (str "Gemini response missing text")) ∧
    (∀ (r : GeminiResponse) (c : GeminiCandidate) (rest : List GeminiCandidate),
       r.candidates = c :: rest → c.finishReason = some (str "MAX_TOKENS") →
       geminiSolveExtract r = .ok (geminiCandidateText c)) ∧
    (∀ (r : GeminiResponse) (c : GeminiCandidate) (rest : List GeminiCandidate),
       r.candidates = c :: rest → geminiCandidateText c ≠ [] →
       geminiSolveExtract r = .ok (geminiCandidateText c)) ∧
    (∀ r : GeminiResponse, r.candidates = [] →
       geminiSolveExtract r =
         .error (str "Empty response from Gemini API (" ++
                 r.blockReason.getD (str "no-candidates") ++ str ")")) ∧
    (∀ (r : GeminiResponse) (c : GeminiCandidate) (rest : List GeminiCandidate)
       (ct : GeminiRespContent) (p : GeminiRespPart) (ps : List GeminiRespPart),
       r.candidates = c :: rest → c.content = some ct → ct.parts = some (p :: ps) →
       jsTrim (p.text.getD []) = [] →
       geminiDebugExtract r = .error (str "Gemini response missing text content")) := by
  refine ⟨?_, ?_, ?_, ?_, ?_⟩
  · intro r c rest hc hempty hfin
    simp only [geminiSolveExtract, hc]
    rw [if_pos ⟨hempty, hfin⟩]
  · intro r c rest hc hfin
    simp only [geminiSolveExtract, hc]
    rw [if_neg]
    intro h
    exact h.2 hfin
  · intro r c rest hc hne
    simp only [geminiSolveExtract, hc]
    rw [if_neg]
    intro h
    exact hne h.1
  · intro r hc
    simp only [geminiSolveExtract, hc]
  · intro r c rest ct p ps hc hct hparts hblank
    simp only [geminiDebugExtract, hc, hct, hparts]
    rw [if_pos hblank]

/-- Witness for the amended C5, applying each part at a concrete reply:
blank text with a normal stop fails, blank text under `MAX_TOKENS` is
accepted in the solve pipeline, nonempty text is accepted, no candidates
fail with the block reason, and blank first-part text fails in the debug
pipeline even under `MAX_TOKENS`. -/
theorem gemini_extraction_behaviour_witness :
    geminiSolveExtract stoppedBlankGeminiResponse =
      .error (str "Gemini response missing text") ∧
    geminiSolveExtract truncatedBlankGeminiResponse =
      .ok (geminiCandidateText ⟨some ⟨some [⟨some (str "  ")⟩]⟩, some (str "MAX_TOKENS")⟩) ∧
    geminiSolveExtract ⟨[⟨some ⟨some [⟨some (str "done")⟩]⟩, some (str "STOP")⟩], none⟩ =
      .ok (geminiCandidateText ⟨some ⟨some [⟨some (str "done")⟩]⟩, some (str "STOP")⟩) ∧
    geminiSolveExtract blockedGeminiResponse =
      .error (str "Empty response from Gemini API (" ++
              blockedGeminiResponse.blockReason.getD (str "no-candidates") ++ str ")") ∧
    geminiDebugExtract truncatedBlankGeminiResponse =
      .error (str "Gemini response missing text content") :=
  ⟨gemini_extraction_behaviour.1 stoppedBlankGeminiResponse _ [] rfl (by decide) (by decide),
   gemini_extraction_behaviour.2.1 truncatedBlankGeminiResponse _ [] rfl rfl,
   gemini_extraction_behaviour.2.2.1 _ _ [] rfl (by decide),
   gemini_extraction_behaviour.2.2.2.1 blockedGeminiResponse rfl,
   gemini_extraction_behaviour.2.2.2.2 truncatedBlankGeminiResponse _ [] _ _ []
     rfl rfl rfl (by decide)⟩

/-- C8: invoking the debug pipeline with no problem context from a prior
successful solve fails fast with the no-context error and issues zero
provider calls; and in every case the debug helper issues at most one
provider call. -/
theorem debug_without_context_fails_fast :
    (∀ (config : Config) (s : ClientState) (env : DebugEnv),
       processExtraScreenshotsHelper none config s env =
         (.failure (str "No problem info available"), 0)) ∧
    (∀ (problemInfo : Option ProblemInfo) (config : Config) (s : ClientState)
       (env : DebugEnv),
       (processExtraScreenshotsHelper problemInfo config s env).2 ≤ 1) := by
  refine ⟨fun _ _ _ => rfl, ?_⟩
  intro problemInfo config s env
  cases problemInfo with
  | none => exact Nat.zero_le 1
  | some pi =>
    obtain ⟨prov, key, ob, gb, ab⟩ := config
    cases prov <;>
      simp only [processExtraScreenshotsHelper] <;>
      (repeat' split) <;> simp

/-- C9: after every client (re)initialization at most one provider
family holds live credentials, and with a nonempty key the selected
provider's client is installed while both other families' fields are
cleared, for every prior client state. -/
theorem single_active_provider_credentials :
    (∀ (s : ClientState) (loaded : Option Config),
       credentialCount (initializeAIClient s loaded) ≤ 1) ∧
    (∀ (s : ClientState) (config : Config), config.apiKey ≠ [] →
       initializeAIClient s (some config) =
         (match config.apiProvider with
          | .openai =>
            { openaiClient := some ⟨config.apiKey, config.openaiBaseUrl⟩
              geminiApiKey := none, geminiBaseUrl := none, anthropicClient := none }
          | .gemini =>
            { openaiClient := none, geminiApiKey := some config.apiKey
              geminiBaseUrl := config.geminiBaseUrl, anthropicClient := none }
          | .anthropic =>
            { openaiClient := none, geminiApiKey := none, geminiBaseUrl := none
              anthropicClient := some ⟨config.apiKey, config.anthropicBaseUrl⟩ })) := by
  constructor
  · intro s loaded
    cases loaded with
    | none => simp [initializeAIClient, credentialCount]
    | some config =>
      obtain ⟨prov, key, ob, gb, ab⟩ := config
      cases prov <;>
        by_cases hk : key = [] <;>
        simp [initializeAIClient, hk, credentialCount]
  · intro s config hk
    obtain ⟨prov, key, ob, gb, ab⟩ := config
    cases prov <;>
      simp [initializeAIClient, hk]

/-- Witness for C9: reinitializing from a state littered with stale
credentials under a Gemini configuration leaves only the Gemini key
live. -/
theorem single_active_provider_credentials_witness :
    credentialCount (initializeAIClient staleClientState (some geminiConfig)) ≤ 1 ∧
    initializeAIClient staleClientState (some geminiConfig) =
      { openaiClient := none, geminiApiKey := some geminiConfig.apiKey
        geminiBaseUrl := geminiConfig.geminiBaseUrl, anthropicClient := none } :=
  ⟨single_active_provider_credentials.1 staleClientState (some geminiConfig),
   single_active_provider_credentials.2 staleClientState geminiConfig (by decide)⟩

/-- Counterexample to C6 as stated: a second solve request while the
first is in flight leaves the first run's abort token unfired (nothing
is ever added to the aborted set), and the superseded first run still
emits its success event when its network call returns. -/
theorem supersession_counterexample :
    twoSolveStarts.solveInFlight = [0, 1] ∧
    twoSolveStarts.aborted = [] ∧
    UIEvent.solutionSuccess ∈
      (coordStep twoSolveStarts (.completeSolve 0 .success)).events := by
  decide

/-- C6 (amended): starting a new run of either kind never aborts any
token — it only overwrites the controller slot — so a superseded run
that completes successfully still emits its success event; tokens are
aborted only by `cancelOngoingRequests`, which aborts whatever both
slots hold and clears them. -/
theorem supersession_behaviour :
    (∀ s : CoordState,
       (coordStep s .startSolve).aborted = s.aborted ∧
       (coordStep s .startDebug).aborted = s.aborted ∧
       (coordStep s .startSolve).solveController = some s.nextToken ∧
       (coordStep s .startDebug).extraController = some s.nextToken) ∧
    (∀ (s : CoordState) (t : Nat), t ∈ s.solveInFlight →
       (coordStep s (.completeSolve t .success)).events =
         s.events ++ [UIEvent.problemExtracted, UIEvent.solutionSuccess]) ∧
    (∀ s : CoordState,
       (coordStep s .cancelOngoing).solveController = none ∧
       (coordStep s .cancelOngoing).extraController = none) ∧
    (∀ (s : CoordState) (t : Nat),
       s.solveController = some t ∨ s.extraController = some t →
       t ∈ (coordStep s .cancelOngoing).aborted) := by
  refine ⟨fun s => ⟨rfl, rfl, rfl, rfl⟩, ?_, fun s => ⟨rfl, rfl⟩, ?_⟩
  · intro s t ht
    simp only [coordStep]
    rw [if_pos ⟨ht, fun h => nomatch h⟩]
  · intro s t ht
    simp only [coordStep, List.mem_append]
    rcases ht with h | h <;> rw [h] <;> simp [Option.toList]

/-- Witness for the amended C6: from the two-starts state, completing
the superseded run 0 still appends its success events, and canceling
aborts the live controller 1. -/
theorem supersession_behaviour_witness :
    ((coordStep twoSolveStarts (.completeSolve 0 .success)).events =
       twoSolveStarts.events ++ [UIEvent.problemExtracted, UIEvent.solutionSuccess]) ∧
    1 ∈ (coordStep twoSolveStarts .cancelOngoing).aborted :=
  ⟨supersession_behaviour.2.1 twoSolveStarts 0 (by decide),
   supersession_behaviour.2.2.2 twoSolveStarts 1 (.inl (by decide))⟩

/-- Counterexample to C7 as stated: a user abort does reach the UI
boundary through an error event channel.  The canceled solve run's
outcome is sent as a solution-error carrying the fixed cancellation
message; in the debug pipeline, the aborted Gemini call is swallowed by
the helper's in-branch catch into the generic Gemini failure, which the
coordinator then sends as a debug-error. -/
theorem canceled_surfaced_as_error_counterexample :
    UIEvent.initialSolutionError (str "Processing was canceled by the user.") ∈
      (coordStep canceledSolveStart (.completeSolve 0 .canceled)).events ∧
    (processExtraScreenshotsHelper (some (baseProblemInfo (str "题目来自截图内容")))
        geminiConfig staleClientState abortedDebugEnv).1 =
      .failure (str "Failed to process debug request with Gemini API. Please check your API key or try again later.") ∧
    UIEvent.debugError (str "Failed to process debug request with Gemini API. Please check your API key or try again later.") ∈
      (coordStep canceledDebugStart
        (.completeDebug 0 (.failure (str "Failed to process debug request with Gemini API. Please check your API key or try again later.")))).events := by
  refine ⟨by decide, rfl, by decide⟩

/-- C7 (amended): a user-aborted in-flight request is reported through
the error event channel of its pipeline.  The solve pipeline's canceled
completion appends exactly a solution-error with the fixed message
`Processing was canceled by the user.`; the debug helper swallows an
aborted Gemini call into its generic failure result, and every failed
debug completion appends exactly a debug-error with the helper's
failure message — so the debug pipeline's own fixed cancellation
message is never the one surfaced. -/
theorem abort_reported_via_error_events :
    (∀ (s : CoordState) (t : Nat), t ∈ s.solveInFlight → t ∈ s.aborted →
       (coordStep s (.completeSolve t .canceled)).events =
         s.events ++
           [UIEvent.initialSolutionError (str "Processing was canceled by the user.")]) ∧
    (∀ (problemInfo : ProblemInfo) (config : Config) (st : ClientState) (env : DebugEnv),
       config.apiProvider = .gemini → st.geminiApiKey ≠ none → env.geminiCall = none →
       processExtraScreenshotsHelper (some problemInfo) config st env =
         (.failure (str "Failed to process debug request with Gemini API. Please check your API key or try again later."), 1)) ∧
    (∀ (s : CoordState) (t : Nat) (error : Str), t ∈ s.extraInFlight →
       (coordStep s (.completeDebug t (.failure error))).events =
         s.events ++ [UIEvent.debugError error]) := by
  refine ⟨?_, ?_, ?_⟩
  · intro s t ht ha
    simp only [coordStep]
    rw [if_pos ⟨ht, fun _ => ha⟩]
  · intro problemInfo config st env hp hk hcall
    obtain ⟨prov, key, ob, gb, ab⟩ := config
    cases hp
    simp only [processExtraScreenshotsHelper, hcall]
    rw [if_neg hk]
  · intro s t error ht
    simp only [coordStep]
    rw [if_pos ht]

/-- Witness for the amended C7: the canceled solve completion, an
aborted debug Gemini call settling as the generic failure, and that
failure surfacing as a debug-error event. -/
theorem abort_reported_via_error_events_witness :
    ((coordStep canceledSolveStart (.completeSolve 0 .canceled)).events =
       canceledSolveStart.events ++
         [UIEvent.initialSolutionError (str "Processing was canceled by the user.")]) ∧
    (processExtraScreenshotsHelper (some (baseProblemInfo (str "题目来自截图内容")))
        geminiConfig staleClientState abortedDebugEnv =
      (.failure (str "Failed to process debug request with Gemini API. Please check your API key or try again later."), 1)) ∧
    ((coordStep canceledDebugStart
        (.completeDebug 0 (.failure (str "Failed to process debug request with Gemini API. Please check your API key or try again later.")))).events =
       canceledDebugStart.events ++
         [UIEvent.debugError (str "Failed to process debug request with Gemini API. Please check your API key or try again later.")]) :=
  ⟨abort_reported_via_error_events.1 canceledSolveStart 0 (by decide) (by decide),
   abort_reported_via_error_events.2.1 (baseProblemInfo (str "题目来自截图内容"))
     geminiConfig staleClientState abortedDebugEnv rfl (by decide) rfl,
   abort_reported_via_error_events.2.2 canceledDebugStart 0
     (str "Failed to process debug request with Gemini API. Please check your API key or try again later.")
     (by decide)⟩

end ProcessingHelper
